import Mathlib

/-!
# Semantic locators, Go WebDriver client (`webdriver_go/semloc/semloc.go`)

A shallow embedding of the package `semloc`: `installJS`, `interpretError`,
`FindElement` and `FindElements`, with the pieces of the Go standard library
and of `github.com/tebeka/selenium` that these four functions use.

Modelling conventions.

* A Go `string` is a Lean `String` (valid UTF-8 text).  `strings.SplitN` is
  embedded for a separator of one character, which is how `interpretError`
  calls it (`":"`).
* A Go `error` value is `Option GoError`; `none` is the `nil` error.  An error
  chain is linear (one `Unwrap` per error), and a `*selenium.Error` in it is a
  non-nil pointer.
* A Go slice is `Option (List α)`; `none` is the `nil` slice.  The raw reply
  of a script (`[]byte`) is a value of a type parameter `ρ`: the package hands
  it to the decoders unread.
* A Go `int` is an `Int`; no arithmetic is performed on the error codes.
* `selenium.WebDriver` is an interface with side effects.  A driver is a record
  of state-passing functions over a state type `σ`; the embedded functions
  return their Go result together with the final driver state and the list of
  driver methods they called, in call order.
-/

set_option autoImplicit false

namespace Semloc

/-! ## Strings (`strings.SplitN`, `strings.TrimSpace`) -/

/-- Splits `s` at occurrences of `sep` into at most `n` pieces, the last piece
being the unsplit remainder: `strings.SplitN(s, sep, n)` for a separator of one
character and `n ≥ 0` (`n = 0` gives the empty result). -/
def splitNChars (sep : Char) : Nat → List Char → List (List Char)
  | 0, _ => []
  | 1, s => [s]
  | n + 2, s =>
    if sep ∈ s then
      s.takeWhile (fun c => c != sep) ::
        splitNChars sep (n + 1) ((s.dropWhile (fun c => c != sep)).drop 1)
    else [s]

/-- Go `strings.SplitN(s, sep, n)` with `sep` a single character. -/
def SplitN (s : String) (sep : Char) (n : Nat) : List String :=
  (splitNChars sep n s.data).map String.mk

/-- Go `unicode.IsSpace`: the code points with the Unicode White_Space
property. -/
def IsSpace (c : Char) : Bool :=
  let r := c.toNat
  r == 0x09 || r == 0x0A || r == 0x0B || r == 0x0C || r == 0x0D || r == 0x20 ||
  r == 0x85 || r == 0xA0 || r == 0x1680 || (0x2000 ≤ r && r ≤ 0x200A) ||
  r == 0x2028 || r == 0x2029 || r == 0x202F || r == 0x205F || r == 0x3000

/-- Go `strings.TrimSpace`: removes all leading and trailing white space. -/
def TrimSpace (s : String) : String :=
  String.mk ((s.data.dropWhile IsSpace).reverse.dropWhile IsSpace).reverse

/-! ## Errors (`error`, `fmt.Errorf`, `errors.As`, `selenium.Error`) -/

/-- The struct `selenium.Error` of `github.com/tebeka/selenium`. -/
structure SeleniumError where
  Err : String
  Message : String
  Stacktrace : String
  HTTPCode : Int
  LegacyCode : Int
  deriving DecidableEq, Repr

/-- A non-nil Go `error` value.
* `selenium e`: a `*selenium.Error`; it has no `Unwrap` method.
* `errorString msg`: an error with no `Unwrap` method that is not a
  `*selenium.Error` (`errors.New`, `fmt.Errorf` without `%w`).
* `wrapError msg err`: an error whose `Unwrap` method returns `err`
  (`fmt.Errorf` with one `%w`); `msg` is its complete message. -/
inductive GoError where
  | selenium (e : SeleniumError)
  | errorString (msg : String)
  | wrapError (msg : String) (err : GoError)
  deriving DecidableEq, Repr

namespace GoError

/-- The method `Error() string`; for `*selenium.Error` it is
`fmt.Sprintf("%s: %s", e.Err, e.Message)`. -/
def Error : GoError → String
  | selenium e => e.Err ++ ": " ++ e.Message
  | errorString msg => msg
  | wrapError msg _ => msg

/-- Go `errors.Unwrap`. -/
def Unwrap : GoError → Option GoError
  | wrapError _ err => some err
  | _ => none

/-- The error chain of `e`: `e`, `Unwrap(e)`, `Unwrap(Unwrap(e))`, ... -/
def chain : GoError → List GoError
  | selenium e => [selenium e]
  | errorString msg => [errorString msg]
  | wrapError msg err => wrapError msg err :: chain err

end GoError

/-- Go `fmt.Errorf(pre + ": %w", err)` for a non-nil `err`: an error that wraps
`err` and whose message is `pre`, a colon, a blank and the message of `err`. -/
def Errorf_w (pre : String) (err : GoError) : GoError :=
  GoError.wrapError (pre ++ ": " ++ err.Error) err

/-- The first error of the chain of `e` that is a `*selenium.Error`, if there
is one: the traversal performed by `errors.As` on a non-nil error. -/
def GoError.asSelenium : GoError → Option SeleniumError
  | GoError.selenium e => some e
  | GoError.errorString _ => none
  | GoError.wrapError _ err => err.asSelenium

/-- Go `errors.As(err, &serr)` with `serr` of type `*selenium.Error`: `some serr`
when it reports true, `none` when it reports false (as it does for `nil`). -/
def errorsAs : Option GoError → Option SeleniumError
  | none => none
  | some e => e.asSelenium

/-! ## `interpretError` -/

/-- The function `interpretError` of `semloc.go`. -/
def interpretError (err : Option GoError) : Option GoError :=
  match errorsAs err with
  | none => err
  | some serr =>
    if serr.Err ≠ "javascript error" then err
    else
      match SplitN serr.Message ':' 3 with
      | [_, part1, _] =>
        let errName := TrimSpace part1
        if errName = "NoSuchElementError" then
          some (GoError.selenium
            { Err := "no such element"
              Message := serr.Message
              Stacktrace := serr.Stacktrace
              HTTPCode := 404
              LegacyCode := serr.LegacyCode })
        else if errName = "InvalidLocatorError" then
          some (GoError.selenium
            { Err := "invalid selector"
              Message := serr.Message
              Stacktrace := serr.Stacktrace
              HTTPCode := 400
              LegacyCode := serr.LegacyCode })
        else err
      | _ => err

/-! ## The driver (`selenium.WebDriver`) -/

/-- A value of type `interface{}` as a script execution returns it: a decoded
JSON value.  The payload of a `float64` is kept as its bit pattern; no
arithmetic is done on it. -/
inductive Value where
  | null
  | bool (b : Bool)
  | float64 (bits : Nat)
  | string (s : String)
  | array (xs : List Value)
  | object (fields : List (String × Value))

/-- The text that the verb `%T` of package `fmt` prints for a value. -/
def Value.typeName : Value → String
  | Value.null => "<nil>"
  | Value.bool _ => "bool"
  | Value.float64 _ => "float64"
  | Value.string _ => "string"
  | Value.array _ => "[]interface \x7b\x7d"
  | Value.object _ => "map[string]interface \x7b\x7d"

/-- An element of a script argument list `[]interface{}`: the functions of this
package put a locator string and a `selenium.WebElement` in it. -/
inductive Arg (ε : Type) where
  | str (s : String)
  | elem (e : ε)
  deriving DecidableEq, Repr

/-- The methods of `selenium.WebDriver` that package `semloc` calls, over a
driver state `σ`.  `ε` is the type of the non-nil `selenium.WebElement`
values and `ρ` the type of a raw reply (`[]byte`), which this package hands
from `ExecuteScriptRaw` to the decoders without looking into it. -/
structure WebDriver (σ ε ρ : Type) where
  ExecuteScript : String → Option (List (Arg ε)) → σ → (Value × Option GoError) × σ
  ExecuteScriptRaw : String → Option (List (Arg ε)) → σ → (ρ × Option GoError) × σ
  DecodeElement : ρ → σ → (Option ε × Option GoError) × σ
  DecodeElements : ρ → σ → (Option (List ε) × Option GoError) × σ

/-- One call of a driver method, with its arguments. -/
inductive Call (ε ρ : Type) where
  | ExecuteScript (script : String) (args : Option (List (Arg ε)))
  | ExecuteScriptRaw (script : String) (args : Option (List (Arg ε)))
  | DecodeElement (data : ρ)
  | DecodeElements (data : ρ)

/-- The outcome of running a function of the package against a driver: the Go
return value, the driver state afterwards and the driver calls made, first
call first. -/
structure Run (σ ε ρ α : Type) where
  ret : α
  state : σ
  calls : List (Call ε ρ)

/-- The script that reads the readiness flag. -/
def isInstalledScript : String := "return window.semanticLocatorsReady === true;"

/-- The script that `FindElement` executes. -/
def findElementScript : String :=
  "return window.findElementBySemanticLocator.apply(null, arguments)"

/-- The script that `FindElements` executes. -/
def findElementsScript : String :=
  "return window.findElementsBySemanticLocator.apply(null, arguments)"

/-! ## `installJS`, `FindElement`, `FindElements` -/

section Glue

variable {σ ε ρ : Type}

/-- The function `installJS` of `semloc.go`.  `jsImplementation` is the
embedded file `wrapper_bin.js`, whose text is a parameter. -/
def installJS (wd : WebDriver σ ε ρ) (jsImplementation : String) (s : σ) :
    Run σ ε ρ (Option GoError) :=
  match wd.ExecuteScript isInstalledScript none s with
  | ((installedRaw, err), s1) =>
    let calls1 : List (Call ε ρ) := [Call.ExecuteScript isInstalledScript none]
    match err with
    | some err =>
      ⟨some (Errorf_w "wd.ExecuteScript(isInstalled)" err), s1, calls1⟩
    | none =>
      match installedRaw with
      | Value.bool installed =>
        if installed then ⟨none, s1, calls1⟩
        else
          match wd.ExecuteScript jsImplementation none s1 with
          | ((_, err), s2) =>
            ⟨err, s2, calls1 ++ [Call.ExecuteScript jsImplementation none]⟩
      | v =>
        ⟨some (GoError.errorString
            ("expected isInstalled script to return a bool, but got " ++ v.typeName)),
          s1, calls1⟩

/-- The argument list that `FindElement` and `FindElements` build:
`[]interface{}{locator}`, with `context` appended when it is not nil. -/
def findArgs (locator : String) (context : Option ε) : List (Arg ε) :=
  match context with
  | none => [Arg.str locator]
  | some c => [Arg.str locator] ++ [Arg.elem c]

/-- The function `FindElement` of `semloc.go`. -/
def FindElement (wd : WebDriver σ ε ρ) (jsImplementation : String) (locator : String)
    (context : Option ε) (s : σ) : Run σ ε ρ (Option ε × Option GoError) :=
  let r := installJS wd jsImplementation s
  match r.ret with
  | some err => ⟨(none, some (Errorf_w "installJS" err)), r.state, r.calls⟩
  | none =>
    let args := findArgs locator context
    match wd.ExecuteScriptRaw findElementScript (some args) r.state with
    | ((elmRaw, err), s1) =>
      let calls1 := r.calls ++ [Call.ExecuteScriptRaw findElementScript (some args)]
      match interpretError err with
      | some err =>
        ⟨(none, some (Errorf_w "wd.ExecuteScriptRaw(window.findElementBySemanticLocator)" err)),
          s1, calls1⟩
      | none =>
        match wd.DecodeElement elmRaw s1 with
        | (res, s2) => ⟨res, s2, calls1 ++ [Call.DecodeElement elmRaw]⟩

/-- The function `FindElements` of `semloc.go`. -/
def FindElements (wd : WebDriver σ ε ρ) (jsImplementation : String) (locator : String)
    (context : Option ε) (s : σ) : Run σ ε ρ (Option (List ε) × Option GoError) :=
  let r := installJS wd jsImplementation s
  match r.ret with
  | some err => ⟨(none, some (Errorf_w "installJS" err)), r.state, r.calls⟩
  | none =>
    let args := findArgs locator context
    match wd.ExecuteScriptRaw findElementsScript (some args) r.state with
    | ((elmsRaw, err), s1) =>
      let calls1 := r.calls ++ [Call.ExecuteScriptRaw findElementsScript (some args)]
      match interpretError err with
      | some err =>
        ⟨(none, some (Errorf_w "wd.ExecuteScriptRaw(window.findElementsBySemanticLocator)" err)),
          s1, calls1⟩
      | none =>
        match wd.DecodeElements elmsRaw s1 with
        | (res, s2) => ⟨res, s2, calls1 ++ [Call.DecodeElements elmsRaw]⟩

end Glue

/-! ## A driver with fixed replies -/

/-- A driver whose replies are fixed in advance: `probe` answers the readiness
script, `impl` is the error of every other `ExecuteScript` call, `found` answers
`ExecuteScriptRaw`; the decoders turn a raw reply into the element of the same
name.  The state counts the calls made. -/
def fixedDriver (probe : Value × Option GoError) (impl : Option GoError)
    (found : String × Option GoError) : WebDriver Nat String String where
  ExecuteScript script _ n :=
    if script = isInstalledScript then (probe, n + 1) else ((Value.null, impl), n + 1)
  ExecuteScriptRaw _ _ n := (found, n + 1)
  DecodeElement raw n := ((some raw, none), n + 1)
  DecodeElements raw n := ((some [raw], none), n + 1)

/-- The `selenium.Error` that a driver reports when a script throws an engine
error called `name`. -/
def jsSeleniumError (name : String) : SeleniumError :=
  { Err := "javascript error"
    Message := "javascript error: " ++ name ++ ": thrown by the engine"
    Stacktrace := ""
    HTTPCode := 500
    LegacyCode := 17 }

/-- The same, as an `error` value. -/
def jsError (name : String) : GoError :=
  GoError.selenium (jsSeleniumError name)

/-! ## The engine and the page

The matching engine is the script `wrapper_bin.js`, which is not among the Go
sources, and the page is the browser behind the driver.  The definitions of
this section follow the specification of the engine (data model, matcher,
error signalling, external interface).  The parser, the role resolver and the
name resolver are given there by contract only and are parameters here. -/

/-- Modelled from the spec: the DOM node view of the engine, which is not in
the Go sources (data model: tag name, attributes, children owned by their
parent).  `id` stands for the identity of the node. -/
inductive Node where
  | mk (id : Nat) (tag : String) (attrs : List (String × String)) (children : List Node)

/-- Modelled from the spec: the identity of a node. -/
def Node.id : Node → Nat
  | Node.mk id _ _ _ => id

/-- Modelled from the spec: the tag name of a node. -/
def Node.tag : Node → String
  | Node.mk _ tag _ _ => tag

/-- Modelled from the spec: the attributes of a node. -/
def Node.attrs : Node → List (String × String)
  | Node.mk _ _ attrs _ => attrs

/-- Modelled from the spec: the children of a node. -/
def Node.children : Node → List Node
  | Node.mk _ _ _ children => children

mutual
/-- Modelled from the spec: the descendants of a node (children, their
children, and so on; the node itself is not among them) in document order, as
a depth-first traversal visits them. -/
def Node.descendants : Node → List Node
  | Node.mk _ _ _ children => descendantsOfList children
/-- Modelled from the spec: the nodes of a sequence of sibling trees in
document order. -/
def descendantsOfList : List Node → List Node
  | [] => []
  | n :: ns => n :: (n.descendants ++ descendantsOfList ns)
end

/-- Modelled from the spec: the DOM subtree rooted at a node in document order:
the node itself, then its descendants. -/
def Node.subtree (n : Node) : List Node := n :: n.descendants

/-- Modelled from the spec: the parsed name pattern of the data model. -/
inductive NamePattern where
  | Exact (s : String)
  | Prefix (s : String)
  | Suffix (s : String)
  | Contains (s : String)
  | Any

/-- Modelled from the spec: comparison of an accessible name with a pattern,
case-sensitive and exact except for the wildcard edges. -/
def NamePattern.matches : NamePattern → String → Bool
  | NamePattern.Exact s, name => name == s
  | NamePattern.Prefix s, name => s.data.isPrefixOf name.data
  | NamePattern.Suffix s, name => s.data.isSuffixOf name.data
  | NamePattern.Contains s, name => decide (s.data <:+: name.data)
  | NamePattern.Any, _ => true

/-- Modelled from the spec: a segment of a locator query: a role token, a name
pattern and the combinator (`outer` records the connector literal). -/
structure Segment where
  role : String
  name : NamePattern
  outer : Bool

/-- Modelled from the spec: the components of the engine that the specification
gives by their contracts: `parse(locatorString) -> Result<Query, SyntaxError>`
(an `error` carries the message of the syntax error), `resolveRole(node)` and
`resolveName(node)`. -/
structure Engine where
  parse : String → Except String (List Segment)
  resolveRole : Node → String
  resolveName : Node → String

/-- Modelled from the spec: the two failure kinds that the engine raises, each
with its human-readable message. -/
inductive EngineError where
  | SyntaxError (message : String)
  | NoMatchError (message : String)

/-- Modelled from the spec: deduplication by node identity, keeping the first
position of each node. -/
def dedupById : List Node → List Node
  | [] => []
  | n :: ns => n :: (dedupById ns).filter (fun m => m.id != n.id)

namespace Engine

/-- Modelled from the spec: a node matches a segment when its resolved role is
the role token and its accessible name matches the name pattern. -/
def matchesSegment (E : Engine) (seg : Segment) (n : Node) : Bool :=
  E.resolveRole n == seg.role && seg.name.matches (E.resolveName n)

/-- Modelled from the spec: the matches of a segment within the descendant
subtree of each node of `ms` (transitive descendants, the node itself
excluded), in the order of `ms`. -/
def search (E : Engine) (seg : Segment) : List Node → List Node
  | [] => []
  | m :: ms => m.descendants.filter (E.matchesSegment seg) ++ search E seg ms

/-- Modelled from the spec: the continuation of the matcher after a segment,
whose matches are `ms`: for each match the search is restricted to the matches
of the next segment within its descendant subtree, and so on; every level is
deduplicated by identity. -/
def findFrom (E : Engine) : List Segment → List Node → List Node
  | [], ms => ms
  | seg :: rest, ms => findFrom E rest (dedupById (E.search seg ms))

/-- Modelled from the spec: `find(query, rootContext, all)` without the error
of the single-result case: a depth-first traversal of the DOM subtree rooted at
`root` finds all nodes matching the first segment anywhere in that subtree
(`root` included); the later segments are matched below these by `findFrom`;
the result is the matches of the last segment. -/
def find (E : Engine) (query : List Segment) (root : Node) : List Node :=
  match query with
  | [] => []
  | seg :: rest =>
    E.findFrom rest (dedupById (root.subtree.filter (E.matchesSegment seg)))

/-- Modelled from the spec: the external interface
`findElements(locatorString, contextNodeOrNull)`: a syntax error for a
malformed locator, else all matches, the empty sequence when there is none. -/
def findElements (E : Engine) (document : Node) (locator : String)
    (context : Option Node) : Except EngineError (List Node) :=
  match E.parse locator with
  | Except.error message => Except.error (EngineError.SyntaxError message)
  | Except.ok query => Except.ok (E.find query (context.getD document))

/-- Modelled from the spec: the external interface
`findElement(locatorString, contextNodeOrNull)`: a syntax error for a malformed
locator, the first match, or the no-match error when there is none. -/
def findElement (E : Engine) (document : Node) (locator : String)
    (context : Option Node) : Except EngineError Node :=
  match E.parse locator with
  | Except.error message => Except.error (EngineError.SyntaxError message)
  | Except.ok query =>
    match E.find query (context.getD document) with
    | [] => Except.error (EngineError.NoMatchError locator)
    | n :: _ => Except.ok n

end Engine

/-- Modelled from the spec: the page behind the driver: the readiness flag of
the engine and the document root. -/
structure Page where
  semanticLocatorsReady : Bool
  document : Node

/-- Modelled from the spec: the raw reply of the page to a find script: one
element handle, a sequence of element handles, or nothing. -/
inductive Reply where
  | nothing
  | element (n : Node)
  | elements (ns : List Node)

/-- Modelled from the spec: the error that the driver reports when a script
throws an error called `name`; the message has the format that the comment in
`interpretError` describes,
`"javascript error: <error name>: <human readable message>"`. -/
def thrown (name message : String) : GoError :=
  GoError.selenium
    { Err := "javascript error"
      Message := "javascript error: " ++ name ++ ": " ++ message
      Stacktrace := ""
      HTTPCode := 500
      LegacyCode := 17 }

/-- Modelled from the spec: an engine error as the driver reports it.  The
syntax error is the one that the glue maps to "invalid selector", the no-match
error the one that it maps to "no such element". -/
def EngineError.toGoError : EngineError → GoError
  | EngineError.SyntaxError message => thrown "InvalidLocatorError" message
  | EngineError.NoMatchError message => thrown "NoSuchElementError" message

/-- Modelled from the spec: a driver in front of a page that can host the
engine `E`, whose implementation script is `js`.  The probe script reads the
readiness flag; the implementation script sets it; the find scripts call the
engine with the locator and the optional context element once the flag is set,
and fail with a `TypeError` before; the decoders read the element handles of a
reply. -/
def browser (E : Engine) (js : String) : WebDriver Page Node Reply where
  ExecuteScript script _ p :=
    if script = isInstalledScript then ((Value.bool p.semanticLocatorsReady, none), p)
    else if script = js then ((Value.null, none), { p with semanticLocatorsReady := true })
    else ((Value.null, none), p)
  ExecuteScriptRaw script args p :=
    if p.semanticLocatorsReady then
      match args with
      | some (Arg.str locator :: rest) =>
        let context : Option Node :=
          match rest with
          | Arg.elem c :: _ => some c
          | _ => none
        if script = findElementScript then
          match E.findElement p.document locator context with
          | Except.ok n => ((Reply.element n, none), p)
          | Except.error e => ((Reply.nothing, some e.toGoError), p)
        else if script = findElementsScript then
          match E.findElements p.document locator context with
          | Except.ok ns => ((Reply.elements ns, none), p)
          | Except.error e => ((Reply.nothing, some e.toGoError), p)
        else ((Reply.nothing, none), p)
      | _ => ((Reply.nothing, some (thrown "TypeError" "the locator is not a string")), p)
    else ((Reply.nothing, some (thrown "TypeError" "the engine is not installed")), p)
  DecodeElement r p :=
    match r with
    | Reply.element n => ((some n, none), p)
    | _ => ((none, some (GoError.errorString "invalid element returned")), p)
  DecodeElements r p :=
    match r with
    | Reply.elements ns => ((some ns, none), p)
    | _ => ((none, some (GoError.errorString "invalid elements returned")), p)

/-! ### A small engine and a small page -/

/-- A node without attributes. -/
def Node.plain (id : Nat) (tag : String) (children : List Node) : Node :=
  Node.mk id tag [] children

/-- An engine for the examples: it parses the two locators of the test
`TestFindWithContext` and `TestNoSuchElement` of `semloc_test.go`, takes the
role of a node from its tag and its name from the attribute `aria-label`. -/
def demoEngine : Engine where
  parse locator :=
    if locator = "\x7bbutton 'OK'\x7d" then
      Except.ok [{ role := "button", name := NamePattern.Exact "OK", outer := false }]
    else if locator = "\x7bbutton 'this label does not exist'\x7d" then
      Except.ok [{ role := "button",
                   name := NamePattern.Exact "this label does not exist", outer := false }]
    else Except.error "unsupported locator"
  resolveRole n := n.tag
  resolveName n := (n.attrs.lookup "aria-label").getD ""

/-- The button `target` of the test `TestFindWithContext`. -/
def demoTarget : Node := Node.mk 3 "button" [("aria-label", "OK")] []

/-- The element `container` of the test `TestFindWithContext`. -/
def demoContainer : Node := Node.plain 2 "div" [demoTarget]

/-- The page of the test `TestFindWithContext`: a button, and a container with
a second button. -/
def demoPage : Page where
  semanticLocatorsReady := false
  document :=
    Node.plain 0 "body" [Node.mk 1 "button" [("aria-label", "OK")] [], demoContainer]

/-! ## Lemmas on splitting and on error chains -/

theorem takeWhile_ne_append (sep : Char) (p rest : List Char) (hp : sep ∉ p) :
    (p ++ sep :: rest).takeWhile (fun c => c != sep) = p := by
  induction p with
  | nil => simp [List.takeWhile]
  | cons a p ih =>
    have ha : a ≠ sep := fun h => hp (by simp [h])
    have hp2 : sep ∉ p := fun h => hp (by simp [h])
    have hb : (a != sep) = true := by simpa using ha
    rw [List.cons_append, List.takeWhile_cons, hb]
    simp [ih hp2]

theorem dropWhile_ne_append (sep : Char) (p rest : List Char) (hp : sep ∉ p) :
    (p ++ sep :: rest).dropWhile (fun c => c != sep) = sep :: rest := by
  induction p with
  | nil => simp [List.dropWhile]
  | cons a p ih =>
    have ha : a ≠ sep := fun h => hp (by simp [h])
    have hp2 : sep ∉ p := fun h => hp (by simp [h])
    have hb : (a != sep) = true := by simpa using ha
    rw [List.cons_append, List.dropWhile_cons, hb]
    simp [ih hp2]

theorem splitNChars_three (sep : Char) (p0 p1 p2 : List Char)
    (h0 : sep ∉ p0) (h1 : sep ∉ p1) :
    splitNChars sep 3 (p0 ++ sep :: (p1 ++ sep :: p2)) = [p0, p1, p2] := by
  have m0 : sep ∈ p0 ++ sep :: (p1 ++ sep :: p2) := by simp
  have m1 : sep ∈ p1 ++ sep :: p2 := by simp
  simp only [splitNChars, m0, m1, if_true, takeWhile_ne_append _ _ _ h0,
    dropWhile_ne_append _ _ _ h0, takeWhile_ne_append _ _ _ h1,
    dropWhile_ne_append _ _ _ h1, List.drop_succ_cons, List.drop_zero]

theorem count_drop_dropWhile (sep : Char) (s : List Char) (h : sep ∈ s) :
    ((s.dropWhile (fun c => c != sep)).drop 1).count sep + 1 = s.count sep := by
  induction s with
  | nil => simp at h
  | cons a s ih =>
    by_cases ha : a = sep
    · subst ha
      simp [List.dropWhile]
    · have hs : sep ∈ s := by
        rcases List.mem_cons.mp h with h | h
        · exact absurd h.symm ha
        · exact h
      have hb : (a != sep) = true := by simpa using ha
      rw [List.dropWhile_cons, hb]
      simp only [if_true]
      rw [ih hs, List.count_cons_of_ne (Ne.symm ha)]

theorem splitNChars_length_lt (sep : Char) (s : List Char) (h : s.count sep < 2) :
    (splitNChars sep 3 s).length < 3 := by
  by_cases m0 : sep ∈ s
  · have hc := count_drop_dropWhile sep s m0
    have m1 : sep ∉ (s.dropWhile (fun c => c != sep)).drop 1 := by
      intro hm
      have := List.count_pos_iff.mpr hm
      omega
    simp only [splitNChars, m0, m1, if_true, if_false, List.length_cons, List.length_nil]
    omega
  · simp [splitNChars, m0]

theorem asSelenium_of_mem_chain (e : GoError) (s : SeleniumError)
    (h : GoError.selenium s ∈ e.chain) : e.asSelenium = some s := by
  induction e with
  | selenium e =>
    simp only [GoError.chain, List.mem_singleton, GoError.selenium.injEq] at h
    simp [GoError.asSelenium, h]
  | errorString msg => simp [GoError.chain] at h
  | wrapError msg err ih =>
    simp only [GoError.chain, List.mem_cons] at h
    rcases h with h | h
    · cases h
    · simpa [GoError.asSelenium] using ih h

theorem SplitN_three (msg p0 p1 p2 : String)
    (hmsg : msg = p0 ++ ":" ++ p1 ++ ":" ++ p2)
    (h0 : ':' ∉ p0.data) (h1 : ':' ∉ p1.data) :
    SplitN msg ':' 3 = [p0, p1, p2] := by
  have hd : msg.data = p0.data ++ ':' :: (p1.data ++ ':' :: p2.data) := by
    rw [hmsg]; simp [String.data_append]
  simp [SplitN, hd, splitNChars_three _ _ _ _ h0 h1]

theorem interpretError_of_name (e : GoError) (s : SeleniumError) (p0 p1 p2 : String)
    (hchain : GoError.selenium s ∈ e.chain)
    (herr : s.Err = "javascript error")
    (hmsg : s.Message = p0 ++ ":" ++ p1 ++ ":" ++ p2)
    (h0 : ':' ∉ p0.data) (h1 : ':' ∉ p1.data) :
    interpretError (some e) =
      if TrimSpace p1 = "NoSuchElementError" then
        some (GoError.selenium
          { Err := "no such element"
            Message := s.Message
            Stacktrace := s.Stacktrace
            HTTPCode := 404
            LegacyCode := s.LegacyCode })
      else if TrimSpace p1 = "InvalidLocatorError" then
        some (GoError.selenium
          { Err := "invalid selector"
            Message := s.Message
            Stacktrace := s.Stacktrace
            HTTPCode := 400
            LegacyCode := s.LegacyCode })
      else some e := by
  have has : errorsAs (some e) = some s := asSelenium_of_mem_chain e s hchain
  have hsplit := SplitN_three s.Message p0 p1 p2 hmsg h0 h1
  simp only [interpretError, has, herr, hsplit, ne_eq, not_true_eq_false, if_false]

/-! ## Lemmas on `interpretError` and `installJS` -/

theorem interpretError_none : interpretError none = none := rfl

theorem interpretError_some (e : GoError) : ∃ ie, interpretError (some e) = some ie := by
  unfold interpretError
  split
  · exact ⟨e, rfl⟩
  · split
    · exact ⟨e, rfl⟩
    · split
      · dsimp only
        split
        · exact ⟨_, rfl⟩
        · split
          · exact ⟨_, rfl⟩
          · exact ⟨e, rfl⟩
      · exact ⟨e, rfl⟩

theorem asSelenium_Errorf_w (pre : String) (e : GoError) :
    (Errorf_w pre e).asSelenium = e.asSelenium := rfl

theorem mem_chain_Errorf_w (pre : String) (e : GoError) : e ∈ (Errorf_w pre e).chain := by
  have hself : e ∈ e.chain := by cases e <;> simp [GoError.chain]
  simp [Errorf_w, GoError.chain, hself]

section GlueLemmas

variable {σ ε ρ : Type}

theorem installJS_calls (wd : WebDriver σ ε ρ) (js : String) (s : σ) :
    (installJS wd js s).calls = [Call.ExecuteScript isInstalledScript none] ∨
    (installJS wd js s).calls =
      [Call.ExecuteScript isInstalledScript none, Call.ExecuteScript js none] := by
  unfold installJS
  rcases wd.ExecuteScript isInstalledScript none s with ⟨⟨v, err⟩, s1⟩
  cases err with
  | some e => exact Or.inl rfl
  | none =>
    cases v with
    | bool b =>
      cases b with
      | true => exact Or.inl rfl
      | false => exact Or.inr rfl
    | _ => exact Or.inl rfl

theorem installJS_calls_ExecuteScript (wd : WebDriver σ ε ρ) (js : String) (s : σ)
    (c : Call ε ρ) (hc : c ∈ (installJS wd js s).calls) :
    ∃ script args, c = Call.ExecuteScript script args := by
  rcases installJS_calls wd js s with h | h <;> rw [h] at hc <;> simp at hc
  · exact ⟨_, _, hc⟩
  · rcases hc with hc | hc <;> exact ⟨_, _, hc⟩

theorem installJS_probe_failure (wd : WebDriver σ ε ρ) (js : String) (s : σ)
    (h : (wd.ExecuteScript isInstalledScript none s).1.2 ≠ none ∨
      ∀ b, (wd.ExecuteScript isInstalledScript none s).1.1 ≠ Value.bool b) :
    ∃ err, installJS wd js s =
      ⟨some err, (wd.ExecuteScript isInstalledScript none s).2,
        [Call.ExecuteScript isInstalledScript none]⟩ := by
  unfold installJS
  generalize wd.ExecuteScript isInstalledScript none s = p at h ⊢
  rcases p with ⟨⟨v, err⟩, s1⟩
  cases err with
  | some e => exact ⟨_, rfl⟩
  | none =>
    cases v with
    | bool b =>
      rcases h with h | h
      · exact absurd rfl h
      · exact absurd rfl (h b)
    | _ => exact ⟨_, rfl⟩

theorem FindElement_install_failed (wd : WebDriver σ ε ρ) (js locator : String)
    (context : Option ε) (s : σ) (err : GoError)
    (h : (installJS wd js s).ret = some err) :
    FindElement wd js locator context s =
      ⟨(none, some (Errorf_w "installJS" err)), (installJS wd js s).state,
        (installJS wd js s).calls⟩ := by
  simp only [FindElement, h]

theorem FindElements_install_failed (wd : WebDriver σ ε ρ) (js locator : String)
    (context : Option ε) (s : σ) (err : GoError)
    (h : (installJS wd js s).ret = some err) :
    FindElements wd js locator context s =
      ⟨(none, some (Errorf_w "installJS" err)), (installJS wd js s).state,
        (installJS wd js s).calls⟩ := by
  simp only [FindElements, h]

theorem FindElement_script_failed (wd : WebDriver σ ε ρ) (js locator : String)
    (context : Option ε) (s : σ) (ie : GoError)
    (h : (installJS wd js s).ret = none)
    (hie : interpretError (wd.ExecuteScriptRaw findElementScript
      (some (findArgs locator context)) (installJS wd js s).state).1.2 = some ie) :
    FindElement wd js locator context s =
      ⟨(none, some (Errorf_w "wd.ExecuteScriptRaw(window.findElementBySemanticLocator)" ie)),
        (wd.ExecuteScriptRaw findElementScript (some (findArgs locator context))
          (installJS wd js s).state).2,
        (installJS wd js s).calls ++
          [Call.ExecuteScriptRaw findElementScript (some (findArgs locator context))]⟩ := by
  simp only [FindElement, h, hie]

theorem FindElements_script_failed (wd : WebDriver σ ε ρ) (js locator : String)
    (context : Option ε) (s : σ) (ie : GoError)
    (h : (installJS wd js s).ret = none)
    (hie : interpretError (wd.ExecuteScriptRaw findElementsScript
      (some (findArgs locator context)) (installJS wd js s).state).1.2 = some ie) :
    FindElements wd js locator context s =
      ⟨(none, some (Errorf_w "wd.ExecuteScriptRaw(window.findElementsBySemanticLocator)" ie)),
        (wd.ExecuteScriptRaw findElementsScript (some (findArgs locator context))
          (installJS wd js s).state).2,
        (installJS wd js s).calls ++
          [Call.ExecuteScriptRaw findElementsScript (some (findArgs locator context))]⟩ := by
  simp only [FindElements, h, hie]

theorem FindElement_script_ok (wd : WebDriver σ ε ρ) (js locator : String)
    (context : Option ε) (s : σ)
    (h : (installJS wd js s).ret = none)
    (hie : interpretError (wd.ExecuteScriptRaw findElementScript
      (some (findArgs locator context)) (installJS wd js s).state).1.2 = none) :
    FindElement wd js locator context s =
      ⟨(wd.DecodeElement
          (wd.ExecuteScriptRaw findElementScript (some (findArgs locator context))
            (installJS wd js s).state).1.1
          (wd.ExecuteScriptRaw findElementScript (some (findArgs locator context))
            (installJS wd js s).state).2).1,
        (wd.DecodeElement
          (wd.ExecuteScriptRaw findElementScript (some (findArgs locator context))
            (installJS wd js s).state).1.1
          (wd.ExecuteScriptRaw findElementScript (some (findArgs locator context))
            (installJS wd js s).state).2).2,
        (installJS wd js s).calls ++
          [Call.ExecuteScriptRaw findElementScript (some (findArgs locator context))] ++
          [Call.DecodeElement
            (wd.ExecuteScriptRaw findElementScript (some (findArgs locator context))
              (installJS wd js s).state).1.1]⟩ := by
  simp only [FindElement, h, hie]

theorem FindElements_script_ok (wd : WebDriver σ ε ρ) (js locator : String)
    (context : Option ε) (s : σ)
    (h : (installJS wd js s).ret = none)
    (hie : interpretError (wd.ExecuteScriptRaw findElementsScript
      (some (findArgs locator context)) (installJS wd js s).state).1.2 = none) :
    FindElements wd js locator context s =
      ⟨(wd.DecodeElements
          (wd.ExecuteScriptRaw findElementsScript (some (findArgs locator context))
            (installJS wd js s).state).1.1
          (wd.ExecuteScriptRaw findElementsScript (some (findArgs locator context))
            (installJS wd js s).state).2).1,
        (wd.DecodeElements
          (wd.ExecuteScriptRaw findElementsScript (some (findArgs locator context))
            (installJS wd js s).state).1.1
          (wd.ExecuteScriptRaw findElementsScript (some (findArgs locator context))
            (installJS wd js s).state).2).2,
        (installJS wd js s).calls ++
          [Call.ExecuteScriptRaw findElementsScript (some (findArgs locator context))] ++
          [Call.DecodeElements
            (wd.ExecuteScriptRaw findElementsScript (some (findArgs locator context))
              (installJS wd js s).state).1.1]⟩ := by
  simp only [FindElements, h, hie]

theorem FindElement_calls (wd : WebDriver σ ε ρ) (js locator : String)
    (context : Option ε) (s : σ) :
    ((installJS wd js s).ret ≠ none ∧
      (FindElement wd js locator context s).calls = (installJS wd js s).calls) ∨
    ((installJS wd js s).ret = none ∧
      ((FindElement wd js locator context s).calls = (installJS wd js s).calls ++
          [Call.ExecuteScriptRaw findElementScript (some (findArgs locator context))] ∨
        ∃ d, (FindElement wd js locator context s).calls = (installJS wd js s).calls ++
          [Call.ExecuteScriptRaw findElementScript (some (findArgs locator context))] ++
          [Call.DecodeElement d])) := by
  cases hret : (installJS wd js s).ret with
  | some err =>
    left
    rw [FindElement_install_failed wd js locator context s err hret]
    exact ⟨by simp, rfl⟩
  | none =>
    right
    refine ⟨rfl, ?_⟩
    cases hie : interpretError (wd.ExecuteScriptRaw findElementScript
        (some (findArgs locator context)) (installJS wd js s).state).1.2 with
    | some ie =>
      left
      rw [FindElement_script_failed wd js locator context s ie hret hie]
    | none =>
      right
      rw [FindElement_script_ok wd js locator context s hret hie]
      exact ⟨_, rfl⟩

theorem FindElements_calls (wd : WebDriver σ ε ρ) (js locator : String)
    (context : Option ε) (s : σ) :
    ((installJS wd js s).ret ≠ none ∧
      (FindElements wd js locator context s).calls = (installJS wd js s).calls) ∨
    ((installJS wd js s).ret = none ∧
      ((FindElements wd js locator context s).calls = (installJS wd js s).calls ++
          [Call.ExecuteScriptRaw findElementsScript (some (findArgs locator context))] ∨
        ∃ d, (FindElements wd js locator context s).calls = (installJS wd js s).calls ++
          [Call.ExecuteScriptRaw findElementsScript (some (findArgs locator context))] ++
          [Call.DecodeElements d])) := by
  cases hret : (installJS wd js s).ret with
  | some err =>
    left
    rw [FindElements_install_failed wd js locator context s err hret]
    exact ⟨by simp, rfl⟩
  | none =>
    right
    refine ⟨rfl, ?_⟩
    cases hie : interpretError (wd.ExecuteScriptRaw findElementsScript
        (some (findArgs locator context)) (installJS wd js s).state).1.2 with
    | some ie =>
      left
      rw [FindElements_script_failed wd js locator context s ie hret hie]
    | none =>
      right
      rw [FindElements_script_ok wd js locator context s hret hie]
      exact ⟨_, rfl⟩

theorem findArgs_eq (locator : String) (context : Option ε) :
    findArgs locator context =
      match context with
      | none => [Arg.str locator]
      | some c => [Arg.str locator, Arg.elem c] := by
  cases context <;> rfl

theorem not_mem_installJS_calls (wd : WebDriver σ ε ρ) (js : String) (s : σ)
    (script : String) (args : Option (List (Arg ε))) :
    Call.ExecuteScriptRaw script args ∉ (installJS wd js s).calls := by
  intro hm
  obtain ⟨sc, ar, hc⟩ := installJS_calls_ExecuteScript wd js s _ hm
  cases hc

end GlueLemmas

/-! ## Lemmas on the matcher -/

theorem mem_of_mem_dedupById (x : Node) (l : List Node) (h : x ∈ dedupById l) : x ∈ l := by
  induction l with
  | nil => simp [dedupById] at h
  | cons n ns ih =>
    simp only [dedupById, List.mem_cons, List.mem_filter] at h
    rcases h with h | ⟨h, _⟩
    · exact h ▸ List.mem_cons_self _ _
    · exact List.mem_cons_of_mem _ (ih h)

mutual
theorem descendants_trans : ∀ (r m n : Node),
    m ∈ r.descendants → n ∈ m.descendants → n ∈ r.descendants
  | Node.mk _ _ _ children, m, n, hm, hn => by
    simp only [Node.descendants] at hm ⊢
    exact descendantsOfList_trans children m n hm hn
theorem descendantsOfList_trans : ∀ (l : List Node) (m n : Node),
    m ∈ descendantsOfList l → n ∈ m.descendants → n ∈ descendantsOfList l
  | [], m, n, hm, _ => by simp [descendantsOfList] at hm
  | x :: xs, m, n, hm, hn => by
    simp only [descendantsOfList, List.mem_cons, List.mem_append] at hm ⊢
    rcases hm with hm | hm | hm
    · subst hm
      exact Or.inr (Or.inl hn)
    · exact Or.inr (Or.inl (descendants_trans x m n hm hn))
    · exact Or.inr (Or.inr (descendantsOfList_trans xs m n hm hn))
end

namespace Engine

theorem mem_search (E : Engine) (seg : Segment) (ms : List Node) (x : Node)
    (h : x ∈ E.search seg ms) : ∃ m, m ∈ ms ∧ x ∈ m.descendants := by
  induction ms with
  | nil => simp [search] at h
  | cons m ms ih =>
    simp only [search, List.mem_append, List.mem_filter] at h
    rcases h with ⟨h, _⟩ | h
    · exact ⟨m, List.mem_cons_self _ _, h⟩
    · obtain ⟨m2, hm2, hx⟩ := ih h
      exact ⟨m2, List.mem_cons_of_mem _ hm2, hx⟩

theorem mem_search_below (E : Engine) (seg : Segment) (root : Node) (ms : List Node)
    (hms : ∀ m, m ∈ ms → m ∈ root.subtree) (x : Node)
    (h : x ∈ dedupById (E.search seg ms)) : x ∈ root.descendants := by
  obtain ⟨m, hm, hx⟩ := mem_search E seg ms x (mem_of_mem_dedupById x _ h)
  have hsub := hms m hm
  simp only [Node.subtree, List.mem_cons] at hsub
  rcases hsub with hsub | hsub
  · exact hsub ▸ hx
  · exact descendants_trans root m x hsub hx

theorem mem_findFrom_below (E : Engine) (root : Node) (query : List Segment) :
    ∀ (ms : List Node), (∀ m, m ∈ ms → m ∈ root.subtree) →
      ∀ x, x ∈ E.findFrom query ms → x ∈ root.subtree := by
  induction query with
  | nil =>
    intro ms hms x hx
    exact hms x (by simpa [findFrom] using hx)
  | cons seg rest ih =>
    intro ms hms x hx
    simp only [findFrom] at hx
    refine ih _ ?_ x hx
    intro m hm
    exact List.mem_cons_of_mem _ (mem_search_below E seg root ms hms m hm)

theorem mem_find (E : Engine) (query : List Segment) (root x : Node)
    (h : x ∈ E.find query root) : x ∈ root.subtree := by
  cases query with
  | nil => simp [find] at h
  | cons seg rest =>
    simp only [find] at h
    refine mem_findFrom_below E root rest _ ?_ x h
    intro m hm
    exact (List.mem_filter.mp (mem_of_mem_dedupById m _ hm)).1

end Engine

/-! ## Lemmas on the page -/

theorem thrown_chain (name message : String) :
    GoError.selenium
        { Err := "javascript error"
          Message := "javascript error: " ++ name ++ ": " ++ message
          Stacktrace := ""
          HTTPCode := 500
          LegacyCode := 17 } ∈ (thrown name message).chain := by
  simp [thrown, GoError.chain]

theorem thrown_message (name message : String) :
    "javascript error: " ++ name ++ ": " ++ message =
      "javascript error" ++ ":" ++ (" " ++ name) ++ ":" ++ (" " ++ message) := by
  apply String.ext
  simp [String.data_append]

theorem interpretError_thrown_InvalidLocatorError (message : String) :
    interpretError (some (thrown "InvalidLocatorError" message)) =
      some (GoError.selenium
        { Err := "invalid selector"
          Message := "javascript error: " ++ "InvalidLocatorError" ++ ": " ++ message
          Stacktrace := ""
          HTTPCode := 400
          LegacyCode := 17 }) := by
  rw [interpretError_of_name _ _ "javascript error" (" " ++ "InvalidLocatorError")
    (" " ++ message) (thrown_chain _ _) rfl (thrown_message _ _) (by decide) (by decide)]
  rw [if_neg (by decide), if_pos (by decide)]

theorem interpretError_thrown_TypeError (message : String) :
    interpretError (some (thrown "TypeError" message)) =
      some (thrown "TypeError" message) := by
  rw [interpretError_of_name _ _ "javascript error" (" " ++ "TypeError")
    (" " ++ message) (thrown_chain _ _) rfl (thrown_message _ _) (by decide) (by decide)]
  rw [if_neg (by decide), if_neg (by decide)]

theorem installJS_browser (E : Engine) (js : String) (p : Page) :
    (installJS (browser E js) js p).ret = none ∧
    (installJS (browser E js) js p).state.document = p.document ∧
    (p.semanticLocatorsReady = true ∨ js ≠ isInstalledScript →
      (installJS (browser E js) js p).state.semanticLocatorsReady = true) := by
  rcases p with ⟨ready, doc⟩
  cases ready with
  | true => simp [installJS, browser]
  | false =>
    by_cases hjs : js = isInstalledScript
    · simp [installJS, browser, hjs]
    · simp [installJS, browser, hjs]

theorem browser_findElementsScript (E : Engine) (js locator : String)
    (context : Option Node) (p : Page) :
    (browser E js).ExecuteScriptRaw findElementsScript (some (findArgs locator context)) p =
      if p.semanticLocatorsReady then
        match E.findElements p.document locator context with
        | Except.ok ns => ((Reply.elements ns, none), p)
        | Except.error e => ((Reply.nothing, some e.toGoError), p)
      else ((Reply.nothing, some (thrown "TypeError" "the engine is not installed")), p) := by
  have hne : ¬ (findElementsScript = findElementScript) := by decide
  cases context <;> simp [browser, findArgs, hne]

theorem browser_findElementScript (E : Engine) (js locator : String)
    (context : Option Node) (p : Page) :
    (browser E js).ExecuteScriptRaw findElementScript (some (findArgs locator context)) p =
      if p.semanticLocatorsReady then
        match E.findElement p.document locator context with
        | Except.ok n => ((Reply.element n, none), p)
        | Except.error e => ((Reply.nothing, some e.toGoError), p)
      else ((Reply.nothing, some (thrown "TypeError" "the engine is not installed")), p) := by
  cases context <;> simp [browser, findArgs]

theorem FindElements_browser_ret (E : Engine) (js locator : String)
    (context : Option Node) (p : Page) :
    (FindElements (browser E js) js locator context p).ret =
      if (installJS (browser E js) js p).state.semanticLocatorsReady then
        match E.parse locator with
        | Except.ok query => (some (E.find query (context.getD p.document)), none)
        | Except.error message =>
          (none, some (Errorf_w "wd.ExecuteScriptRaw(window.findElementsBySemanticLocator)"
            (GoError.selenium
              { Err := "invalid selector"
                Message := "javascript error: " ++ "InvalidLocatorError" ++ ": " ++ message
                Stacktrace := ""
                HTTPCode := 400
                LegacyCode := 17 })))
      else
        (none, some (Errorf_w "wd.ExecuteScriptRaw(window.findElementsBySemanticLocator)"
          (thrown "TypeError" "the engine is not installed"))) := by
  obtain ⟨hret, hdoc, _⟩ := installJS_browser E js p
  have hraw := browser_findElementsScript E js locator context
    (installJS (browser E js) js p).state
  cases hready : (installJS (browser E js) js p).state.semanticLocatorsReady with
  | false =>
    rw [hready] at hraw
    simp only [Bool.false_eq_true, if_false] at hraw ⊢
    have hie : interpretError ((browser E js).ExecuteScriptRaw findElementsScript
        (some (findArgs locator context)) (installJS (browser E js) js p).state).1.2 =
        some (thrown "TypeError" "the engine is not installed") := by
      rw [hraw]; exact interpretError_thrown_TypeError _
    rw [FindElements_script_failed _ js locator context p _ hret hie]
  | true =>
    rw [hready] at hraw
    simp only [if_true] at hraw ⊢
    cases hparse : E.parse locator with
    | error message =>
      simp only [Engine.findElements, hparse, EngineError.toGoError] at hraw
      have hie : interpretError ((browser E js).ExecuteScriptRaw findElementsScript
          (some (findArgs locator context)) (installJS (browser E js) js p).state).1.2 =
          some (GoError.selenium
            { Err := "invalid selector"
              Message := "javascript error: " ++ "InvalidLocatorError" ++ ": " ++ message
              Stacktrace := ""
              HTTPCode := 400
              LegacyCode := 17 }) := by
        rw [hraw]; exact interpretError_thrown_InvalidLocatorError _
      rw [FindElements_script_failed _ js locator context p _ hret hie]
    | ok query =>
      simp only [Engine.findElements, hparse] at hraw
      have hie : interpretError ((browser E js).ExecuteScriptRaw findElementsScript
          (some (findArgs locator context)) (installJS (browser E js) js p).state).1.2 =
          none := by
        rw [hraw]; rfl
      rw [FindElements_script_ok _ js locator context p hret hie, hraw, hdoc]
      rfl

theorem FindElement_browser_ok (E : Engine) (js locator : String)
    (context : Option Node) (p : Page) (el : Node)
    (h : (FindElement (browser E js) js locator context p).ret.1 = some el) :
    ∃ query, E.parse locator = Except.ok query ∧
      el ∈ E.find query (context.getD p.document) := by
  obtain ⟨hret, hdoc, _⟩ := installJS_browser E js p
  have hraw := browser_findElementScript E js locator context
    (installJS (browser E js) js p).state
  cases hie : interpretError ((browser E js).ExecuteScriptRaw findElementScript
      (some (findArgs locator context)) (installJS (browser E js) js p).state).1.2 with
  | some ie =>
    rw [FindElement_script_failed _ js locator context p ie hret hie] at h
    cases h
  | none =>
    rw [FindElement_script_ok _ js locator context p hret hie] at h
    cases hready : (installJS (browser E js) js p).state.semanticLocatorsReady with
    | false =>
      rw [hready] at hraw
      simp only [Bool.false_eq_true, if_false] at hraw
      rw [hraw] at hie
      obtain ⟨ie, hie2⟩ := interpretError_some (thrown "TypeError" "the engine is not installed")
      rw [hie2] at hie
      cases hie
    | true =>
      rw [hready] at hraw
      simp only [if_true] at hraw
      cases hparse : E.parse locator with
      | error message =>
        simp only [Engine.findElement, hparse] at hraw
        rw [hraw] at hie
        obtain ⟨ie, hie2⟩ :=
          interpretError_some (EngineError.SyntaxError message).toGoError
        rw [hie2] at hie
        cases hie
      | ok query =>
        refine ⟨query, rfl, ?_⟩
        simp only [Engine.findElement, hparse, hdoc] at hraw
        cases hfind : E.find query (context.getD p.document) with
        | nil =>
          rw [hfind] at hraw
          rw [hraw] at hie
          obtain ⟨ie, hie2⟩ :=
            interpretError_some (EngineError.NoMatchError locator).toGoError
          rw [hie2] at hie
          cases hie
        | cons n ns =>
          rw [hfind] at hraw
          rw [hraw] at h
          simp only [browser, Option.some.injEq] at h
          rw [← h]
          exact List.mem_cons_self _ _

/-! ## `interpretError`: the remapping of engine errors -/

/-- C1. If the chain of `e` contains a `selenium.Error` `s` with
`s.Err = "javascript error"` whose message is `p0:p1:p2` with no `':'` in `p0`
and `p1` (so `p1` is the second part of the message split at its first two
`':'`) and `p1` trimmed is `"NoSuchElementError"`, then `interpretError(e)` is a
`selenium.Error` with `Err = "no such element"`, `HTTPCode = 404` and the
`Message`, `Stacktrace` and `LegacyCode` of `s`. -/
theorem interpretError_NoSuchElementError (e : GoError) (s : SeleniumError)
    (p0 p1 p2 : String)
    (hchain : GoError.selenium s ∈ e.chain)
    (herr : s.Err = "javascript error")
    (hmsg : s.Message = p0 ++ ":" ++ p1 ++ ":" ++ p2)
    (h0 : ':' ∉ p0.data) (h1 : ':' ∉ p1.data)
    (hname : TrimSpace p1 = "NoSuchElementError") :
    interpretError (some e) = some (GoError.selenium
      { Err := "no such element"
        Message := s.Message
        Stacktrace := s.Stacktrace
        HTTPCode := 404
        LegacyCode := s.LegacyCode }) := by
  rw [interpretError_of_name e s p0 p1 p2 hchain herr hmsg h0 h1, if_pos hname]

/-- C1, at the error of the test `TestNoSuchElement`, wrapped once. -/
theorem interpretError_NoSuchElementError_witness :
    interpretError (some (Errorf_w "wd.ExecuteScriptRaw"
        (GoError.selenium
          { Err := "javascript error"
            Message := "javascript error: NoSuchElementError: no element matched"
            Stacktrace := "at find"
            HTTPCode := 500
            LegacyCode := 17 }))) =
      some (GoError.selenium
        { Err := "no such element"
          Message := "javascript error: NoSuchElementError: no element matched"
          Stacktrace := "at find"
          HTTPCode := 404
          LegacyCode := 17 }) :=
  interpretError_NoSuchElementError _
    { Err := "javascript error"
      Message := "javascript error: NoSuchElementError: no element matched"
      Stacktrace := "at find"
      HTTPCode := 500
      LegacyCode := 17 }
    "javascript error" " NoSuchElementError" " no element matched"
    (by simp [Errorf_w, GoError.chain]) rfl (by decide) (by decide) (by decide) (by decide)

/-- C2. If the chain of `e` contains a `selenium.Error` `s` with
`s.Err = "javascript error"` whose message is `p0:p1:p2` with no `':'` in `p0`
and `p1` and `p1` trimmed is `"InvalidLocatorError"`, then `interpretError(e)`
is a `selenium.Error` with `Err = "invalid selector"`, `HTTPCode = 400` and the
`Message`, `Stacktrace` and `LegacyCode` of `s`. -/
theorem interpretError_InvalidLocatorError (e : GoError) (s : SeleniumError)
    (p0 p1 p2 : String)
    (hchain : GoError.selenium s ∈ e.chain)
    (herr : s.Err = "javascript error")
    (hmsg : s.Message = p0 ++ ":" ++ p1 ++ ":" ++ p2)
    (h0 : ':' ∉ p0.data) (h1 : ':' ∉ p1.data)
    (hname : TrimSpace p1 = "InvalidLocatorError") :
    interpretError (some e) = some (GoError.selenium
      { Err := "invalid selector"
        Message := s.Message
        Stacktrace := s.Stacktrace
        HTTPCode := 400
        LegacyCode := s.LegacyCode }) := by
  have hne : ¬ (TrimSpace p1 = "NoSuchElementError") := by rw [hname]; decide
  rw [interpretError_of_name e s p0 p1 p2 hchain herr hmsg h0 h1, if_neg hne, if_pos hname]

/-- C2, at an error as the test `TestInvalidSyntax` provokes it. -/
theorem interpretError_InvalidLocatorError_witness :
    interpretError (some (GoError.selenium
        { Err := "javascript error"
          Message := "javascript error: InvalidLocatorError: unterminated quote"
          Stacktrace := ""
          HTTPCode := 500
          LegacyCode := 17 })) =
      some (GoError.selenium
        { Err := "invalid selector"
          Message := "javascript error: InvalidLocatorError: unterminated quote"
          Stacktrace := ""
          HTTPCode := 400
          LegacyCode := 17 }) :=
  interpretError_InvalidLocatorError _
    { Err := "javascript error"
      Message := "javascript error: InvalidLocatorError: unterminated quote"
      Stacktrace := ""
      HTTPCode := 500
      LegacyCode := 17 }
    "javascript error" " InvalidLocatorError" " unterminated quote"
    (by simp [GoError.chain]) rfl (by decide) (by decide) (by decide) (by decide)

/-- C3. Every other error passes through unchanged: if `errors.As` finds no
`selenium.Error` in `err` (the `nil` error included), or the one it finds has
an `Err` other than `"javascript error"`, or a message with fewer than two
`':'`, or a message `p0:p1:p2` (no `':'` in `p0`, `p1`) where `p1` trimmed is
neither `"NoSuchElementError"` nor `"InvalidLocatorError"`, then
`interpretError(err)` is `err`; and `interpretError(nil)` is `nil`. -/
theorem interpretError_passthrough (err : Option GoError)
    (h : errorsAs err = none ∨
      ∃ s, errorsAs err = some s ∧
        (s.Err ≠ "javascript error" ∨
         s.Message.data.count ':' < 2 ∨
         ∃ p0 p1 p2 : String, s.Message = p0 ++ ":" ++ p1 ++ ":" ++ p2 ∧
           ':' ∉ p0.data ∧ ':' ∉ p1.data ∧
           TrimSpace p1 ≠ "NoSuchElementError" ∧
           TrimSpace p1 ≠ "InvalidLocatorError")) :
    interpretError err = err ∧ interpretError none = none := by
  refine ⟨?_, rfl⟩
  rcases h with h | ⟨s, has, h⟩
  · simp only [interpretError, h]
  · rcases h with h | h | ⟨p0, p1, p2, hmsg, h0, h1, hn1, hn2⟩
    · simp only [interpretError, has, h, ne_eq, not_false_eq_true, if_true]
    · have hlen : (SplitN s.Message ':' 3).length < 3 := by
        simpa [SplitN] using splitNChars_length_lt ':' s.Message.data h
      simp only [interpretError, has]
      split
      · rfl
      · split
        · rename_i heq
          rw [heq] at hlen
          simp at hlen
        · rfl
    · have hsplit := SplitN_three s.Message p0 p1 p2 hmsg h0 h1
      simp only [interpretError, has, hsplit, hn1, hn2, if_false, ite_self]

/-- C3, at a `selenium.Error` whose error name is `TypeError`, wrapped once. -/
theorem interpretError_passthrough_witness :
    interpretError (some (Errorf_w "run"
        (GoError.selenium
          { Err := "javascript error"
            Message := "javascript error: TypeError: x is not a function"
            Stacktrace := ""
            HTTPCode := 500
            LegacyCode := 17 }))) =
      some (Errorf_w "run"
        (GoError.selenium
          { Err := "javascript error"
            Message := "javascript error: TypeError: x is not a function"
            Stacktrace := ""
            HTTPCode := 500
            LegacyCode := 17 })) ∧
    interpretError none = none :=
  interpretError_passthrough _
    (Or.inr ⟨_, rfl, Or.inr (Or.inr
      ⟨"javascript error", " TypeError", " x is not a function",
        by decide, by decide, by decide, by decide, by decide⟩)⟩)

/-! ## `installJS` -/

section GlueTheorems

variable {σ ε ρ : Type}

/-- C8. When the readiness probe returns the boolean `true`, `installJS` returns
`nil` and its only driver call is the probe: the implementation script is not
executed.  When the probe returns the boolean `false`, the driver calls are the
probe followed by one execution of the implementation script, and `installJS`
returns the error of that execution. -/
theorem installJS_probe_bool (wd : WebDriver σ ε ρ) (js : String) (s s1 : σ) (b : Bool)
    (hprobe : wd.ExecuteScript isInstalledScript none s = ((Value.bool b, none), s1)) :
    (b = true →
      installJS wd js s = ⟨none, s1, [Call.ExecuteScript isInstalledScript none]⟩) ∧
    (b = false →
      installJS wd js s =
        ⟨(wd.ExecuteScript js none s1).1.2, (wd.ExecuteScript js none s1).2,
          [Call.ExecuteScript isInstalledScript none, Call.ExecuteScript js none]⟩) := by
  constructor
  · intro hb
    subst hb
    simp [installJS, hprobe]
  · intro hb
    subst hb
    simp [installJS, hprobe]

/-- C8, at a driver whose flag is set and at one whose flag is not set and
whose implementation script fails. -/
theorem installJS_probe_bool_witness :
    installJS (fixedDriver (Value.bool true, none) none ("e", none)) "JS" 0 =
      ⟨none, 1, [Call.ExecuteScript isInstalledScript none]⟩ ∧
    installJS (fixedDriver (Value.bool false, none) (some (GoError.errorString "boom"))
        ("e", none)) "JS" 0 =
      ⟨some (GoError.errorString "boom"), 2,
        [Call.ExecuteScript isInstalledScript none, Call.ExecuteScript "JS" none]⟩ :=
  ⟨(installJS_probe_bool (fixedDriver (Value.bool true, none) none ("e", none)) "JS" 0 1
      true rfl).1 rfl,
   (installJS_probe_bool
      (fixedDriver (Value.bool false, none) (some (GoError.errorString "boom")) ("e", none))
      "JS" 0 1 false rfl).2 rfl⟩

/-- C10. If the readiness probe fails, or returns a value that is not a
boolean, then `installJS` returns a non-nil error and its only driver call is
the probe (the implementation script is not executed); `FindElement` and
`FindElements` then return a nil result with a non-nil error, and their only
driver call is that probe: no find script is executed and nothing is
decoded. -/
theorem probe_failure_stops (wd : WebDriver σ ε ρ) (js locator : String)
    (context : Option ε) (s : σ)
    (h : (wd.ExecuteScript isInstalledScript none s).1.2 ≠ none ∨
      ∀ b, (wd.ExecuteScript isInstalledScript none s).1.1 ≠ Value.bool b) :
    ((installJS wd js s).ret ≠ none ∧
      (installJS wd js s).calls = [Call.ExecuteScript isInstalledScript none]) ∧
    ((FindElement wd js locator context s).ret.1 = none ∧
      (FindElement wd js locator context s).ret.2 ≠ none ∧
      (FindElement wd js locator context s).calls =
        [Call.ExecuteScript isInstalledScript none]) ∧
    ((FindElements wd js locator context s).ret.1 = none ∧
      (FindElements wd js locator context s).ret.2 ≠ none ∧
      (FindElements wd js locator context s).calls =
        [Call.ExecuteScript isInstalledScript none]) := by
  obtain ⟨err, hinst⟩ := installJS_probe_failure wd js s h
  have hret : (installJS wd js s).ret = some err := by rw [hinst]
  have hcalls : (installJS wd js s).calls = [Call.ExecuteScript isInstalledScript none] := by
    rw [hinst]
  refine ⟨⟨by rw [hret]; simp, hcalls⟩, ?_, ?_⟩
  · rw [FindElement_install_failed wd js locator context s err hret]
    exact ⟨rfl, by simp, hcalls⟩
  · rw [FindElements_install_failed wd js locator context s err hret]
    exact ⟨rfl, by simp, hcalls⟩

/-- C10, at a driver whose probe returns the string `"yes"`. -/
theorem probe_failure_stops_witness :
    ((installJS (fixedDriver (Value.string "yes", none) none ("e", none)) "JS" 0).ret ≠ none ∧
      (installJS (fixedDriver (Value.string "yes", none) none ("e", none)) "JS" 0).calls =
        [Call.ExecuteScript isInstalledScript none]) ∧
    ((FindElement (fixedDriver (Value.string "yes", none) none ("e", none)) "JS"
        "\x7bbutton\x7d" none 0).ret.1 = none ∧
      (FindElement (fixedDriver (Value.string "yes", none) none ("e", none)) "JS"
        "\x7bbutton\x7d" none 0).ret.2 ≠ none ∧
      (FindElement (fixedDriver (Value.string "yes", none) none ("e", none)) "JS"
        "\x7bbutton\x7d" none 0).calls = [Call.ExecuteScript isInstalledScript none]) ∧
    ((FindElements (fixedDriver (Value.string "yes", none) none ("e", none)) "JS"
        "\x7bbutton\x7d" none 0).ret.1 = none ∧
      (FindElements (fixedDriver (Value.string "yes", none) none ("e", none)) "JS"
        "\x7bbutton\x7d" none 0).ret.2 ≠ none ∧
      (FindElements (fixedDriver (Value.string "yes", none) none ("e", none)) "JS"
        "\x7bbutton\x7d" none 0).calls = [Call.ExecuteScript isInstalledScript none]) :=
  probe_failure_stops (fixedDriver (Value.string "yes", none) none ("e", none)) "JS"
    "\x7bbutton\x7d" none 0 (Or.inr (fun b hb => by cases hb))

/-! ## `FindElement` and `FindElements` -/

/-- C4. On a driver where installation succeeds and the find script fails with
error `e`, `FindElement` and `FindElements` return a nil result and a non-nil
error whose chain contains `interpretError(e)`, and no decode call is made.
Hence when the chain of `e` has a `selenium.Error` "javascript error" whose
message `p0:p1:p2` names `InvalidLocatorError` (resp. `NoSuchElementError`),
`errors.As` finds in the returned error a `selenium.Error` with `Err`
`"invalid selector"` (resp. `"no such element"`). -/
theorem find_script_failure (wd : WebDriver σ ε ρ) (js locator : String)
    (context : Option ε) (s : σ)
    (hinst : (installJS wd js s).ret = none) :
    (∀ e, (wd.ExecuteScriptRaw findElementScript (some (findArgs locator context))
        (installJS wd js s).state).1.2 = some e →
      ∃ ie werr, interpretError (some e) = some ie ∧
        (FindElement wd js locator context s).ret = (none, some werr) ∧
        ie ∈ werr.chain ∧
        (∀ d, Call.DecodeElement d ∉ (FindElement wd js locator context s).calls ∧
          Call.DecodeElements d ∉ (FindElement wd js locator context s).calls) ∧
        (∀ (sel : SeleniumError) (p0 p1 p2 : String),
          GoError.selenium sel ∈ e.chain → sel.Err = "javascript error" →
          sel.Message = p0 ++ ":" ++ p1 ++ ":" ++ p2 → ':' ∉ p0.data → ':' ∉ p1.data →
          (TrimSpace p1 = "InvalidLocatorError" →
            ∃ r, errorsAs (some werr) = some r ∧ r.Err = "invalid selector") ∧
          (TrimSpace p1 = "NoSuchElementError" →
            ∃ r, errorsAs (some werr) = some r ∧ r.Err = "no such element"))) ∧
    (∀ e, (wd.ExecuteScriptRaw findElementsScript (some (findArgs locator context))
        (installJS wd js s).state).1.2 = some e →
      ∃ ie werr, interpretError (some e) = some ie ∧
        (FindElements wd js locator context s).ret = (none, some werr) ∧
        ie ∈ werr.chain ∧
        (∀ d, Call.DecodeElement d ∉ (FindElements wd js locator context s).calls ∧
          Call.DecodeElements d ∉ (FindElements wd js locator context s).calls) ∧
        (∀ (sel : SeleniumError) (p0 p1 p2 : String),
          GoError.selenium sel ∈ e.chain → sel.Err = "javascript error" →
          sel.Message = p0 ++ ":" ++ p1 ++ ":" ++ p2 → ':' ∉ p0.data → ':' ∉ p1.data →
          (TrimSpace p1 = "InvalidLocatorError" →
            ∃ r, errorsAs (some werr) = some r ∧ r.Err = "invalid selector") ∧
          (TrimSpace p1 = "NoSuchElementError" →
            ∃ r, errorsAs (some werr) = some r ∧ r.Err = "no such element"))) := by
  have hnodecode : ∀ (script : String) (args : Option (List (Arg ε))) (d : ρ),
      Call.DecodeElement d ∉
          (installJS wd js s).calls ++ [Call.ExecuteScriptRaw script args] ∧
        Call.DecodeElements d ∉
          (installJS wd js s).calls ++ [Call.ExecuteScriptRaw script args] := by
    intro script args d
    constructor <;>
    · intro hmem
      rcases List.mem_append.mp hmem with hm | hm
      · obtain ⟨sc, ar, hc⟩ := installJS_calls_ExecuteScript wd js s _ hm
        cases hc
      · simp at hm
  have hname : ∀ (pre : String) (e ie : GoError), interpretError (some e) = some ie →
      ∀ (sel : SeleniumError) (p0 p1 p2 : String),
        GoError.selenium sel ∈ e.chain → sel.Err = "javascript error" →
        sel.Message = p0 ++ ":" ++ p1 ++ ":" ++ p2 → ':' ∉ p0.data → ':' ∉ p1.data →
        (TrimSpace p1 = "InvalidLocatorError" →
          ∃ r, errorsAs (some (Errorf_w pre ie)) = some r ∧ r.Err = "invalid selector") ∧
        (TrimSpace p1 = "NoSuchElementError" →
          ∃ r, errorsAs (some (Errorf_w pre ie)) = some r ∧ r.Err = "no such element") := by
    intro pre e ie hie sel p0 p1 p2 hchain herr hmsg h0 h1
    have hof := interpretError_of_name e sel p0 p1 p2 hchain herr hmsg h0 h1
    rw [hie] at hof
    constructor
    · intro hn
      have hne : ¬ (TrimSpace p1 = "NoSuchElementError") := by rw [hn]; decide
      rw [if_neg hne, if_pos hn] at hof
      cases hof
      exact ⟨_, rfl, rfl⟩
    · intro hn
      rw [if_pos hn] at hof
      cases hof
      exact ⟨_, rfl, rfl⟩
  constructor
  · intro e he
    obtain ⟨ie, hie⟩ := interpretError_some e
    have hie2 : interpretError (wd.ExecuteScriptRaw findElementScript
        (some (findArgs locator context)) (installJS wd js s).state).1.2 = some ie := by
      rw [he, hie]
    rw [FindElement_script_failed wd js locator context s ie hinst hie2]
    exact ⟨ie, _, hie, rfl, mem_chain_Errorf_w _ ie, hnodecode _ _, hname _ e ie hie⟩
  · intro e he
    obtain ⟨ie, hie⟩ := interpretError_some e
    have hie2 : interpretError (wd.ExecuteScriptRaw findElementsScript
        (some (findArgs locator context)) (installJS wd js s).state).1.2 = some ie := by
      rw [he, hie]
    rw [FindElements_script_failed wd js locator context s ie hinst hie2]
    exact ⟨ie, _, hie, rfl, mem_chain_Errorf_w _ ie, hnodecode _ _, hname _ e ie hie⟩

/-- C5. On a driver where installation succeeds and the find script returns the
raw value `r` with no error, `FindElement` returns exactly what
`wd.DecodeElement(r)` returns and `FindElements` exactly what
`wd.DecodeElements(r)` returns: the decoded value and the decode error. -/
theorem find_returns_decoded (wd : WebDriver σ ε ρ) (js locator : String)
    (context : Option ε) (s : σ)
    (hinst : (installJS wd js s).ret = none) :
    (∀ r s1, wd.ExecuteScriptRaw findElementScript (some (findArgs locator context))
        (installJS wd js s).state = ((r, none), s1) →
      (FindElement wd js locator context s).ret = (wd.DecodeElement r s1).1) ∧
    (∀ r s1, wd.ExecuteScriptRaw findElementsScript (some (findArgs locator context))
        (installJS wd js s).state = ((r, none), s1) →
      (FindElements wd js locator context s).ret = (wd.DecodeElements r s1).1) := by
  constructor
  · intro r s1 hr
    have hie : interpretError (wd.ExecuteScriptRaw findElementScript
        (some (findArgs locator context)) (installJS wd js s).state).1.2 = none := by
      rw [hr]; rfl
    rw [FindElement_script_ok wd js locator context s hinst hie, hr]
  · intro r s1 hr
    have hie : interpretError (wd.ExecuteScriptRaw findElementsScript
        (some (findArgs locator context)) (installJS wd js s).state).1.2 = none := by
      rw [hr]; rfl
    rw [FindElements_script_ok wd js locator context s hinst hie, hr]

/-- C4, at a driver whose find scripts throw `InvalidLocatorError`: both
functions return a nil result and an error in which `errors.As` finds
`"invalid selector"`. -/
theorem find_script_failure_witness :
    (∃ werr, (FindElement
          (fixedDriver (Value.bool true, none) none ("", some (jsError "InvalidLocatorError")))
          "JS" "\x7bbutton 'OK'" none 0).ret = (none, some werr) ∧
        ∃ r, errorsAs (some werr) = some r ∧ r.Err = "invalid selector") ∧
    (∃ werr, (FindElements
          (fixedDriver (Value.bool true, none) none ("", some (jsError "InvalidLocatorError")))
          "JS" "\x7bbutton 'OK'" none 0).ret = (none, some werr) ∧
        ∃ r, errorsAs (some werr) = some r ∧ r.Err = "invalid selector") :=
  have h := find_script_failure
    (fixedDriver (Value.bool true, none) none ("", some (jsError "InvalidLocatorError")))
    "JS" "\x7bbutton 'OK'" none 0 rfl
  ⟨match h.1 (jsError "InvalidLocatorError") rfl with
    | ⟨_, werr, _, hret, _, _, hn⟩ =>
      ⟨werr, hret,
        (hn (jsSeleniumError "InvalidLocatorError") "javascript error"
          " InvalidLocatorError" " thrown by the engine"
          (by simp [jsError, GoError.chain]) rfl (by decide) (by decide) (by decide)).1
          (by decide)⟩,
   match h.2 (jsError "InvalidLocatorError") rfl with
    | ⟨_, werr, _, hret, _, _, hn⟩ =>
      ⟨werr, hret,
        (hn (jsSeleniumError "InvalidLocatorError") "javascript error"
          " InvalidLocatorError" " thrown by the engine"
          (by simp [jsError, GoError.chain]) rfl (by decide) (by decide) (by decide)).1
          (by decide)⟩⟩

/-- C5, at a driver whose find scripts return the raw reply `"e1"`. -/
theorem find_returns_decoded_witness :
    (FindElement (fixedDriver (Value.bool true, none) none ("e1", none))
        "JS" "\x7bbutton 'OK'\x7d" none 0).ret = (some "e1", none) ∧
    (FindElements (fixedDriver (Value.bool true, none) none ("e1", none))
        "JS" "\x7bbutton 'OK'\x7d" none 0).ret = (some ["e1"], none) :=
  have h := find_returns_decoded (fixedDriver (Value.bool true, none) none ("e1", none))
    "JS" "\x7bbutton 'OK'\x7d" none 0 rfl
  ⟨h.1 "e1" 2 rfl, h.2 "e1" 2 rfl⟩

/-- C9. Every `ExecuteScriptRaw` call of `FindElement` (resp. `FindElements`)
runs the find script of that function with the argument list `[locator]` when
`context` is nil and `[locator, context]` when it is not, the locator being
passed as it was given; and when installation succeeds that call is made. -/
theorem find_script_arguments (wd : WebDriver σ ε ρ) (js locator : String)
    (context : Option ε) (s : σ) :
    ((∀ script args,
        Call.ExecuteScriptRaw script args ∈ (FindElement wd js locator context s).calls →
        script = findElementScript ∧
        args = some (match context with
          | none => [Arg.str locator]
          | some c => [Arg.str locator, Arg.elem c])) ∧
      ((installJS wd js s).ret = none →
        Call.ExecuteScriptRaw findElementScript
          (some (match context with
            | none => [Arg.str locator]
            | some c => [Arg.str locator, Arg.elem c])) ∈
          (FindElement wd js locator context s).calls)) ∧
    ((∀ script args,
        Call.ExecuteScriptRaw script args ∈ (FindElements wd js locator context s).calls →
        script = findElementsScript ∧
        args = some (match context with
          | none => [Arg.str locator]
          | some c => [Arg.str locator, Arg.elem c])) ∧
      ((installJS wd js s).ret = none →
        Call.ExecuteScriptRaw findElementsScript
          (some (match context with
            | none => [Arg.str locator]
            | some c => [Arg.str locator, Arg.elem c])) ∈
          (FindElements wd js locator context s).calls)) := by
  have hargs := findArgs_eq locator context
  refine ⟨⟨?_, ?_⟩, ⟨?_, ?_⟩⟩
  · intro script args hm
    rcases FindElement_calls wd js locator context s with ⟨_, hc⟩ | ⟨_, hc | ⟨d, hc⟩⟩
    · rw [hc] at hm
      exact absurd hm (not_mem_installJS_calls wd js s script args)
    · rw [hc] at hm
      rcases List.mem_append.mp hm with hm | hm
      · exact absurd hm (not_mem_installJS_calls wd js s script args)
      · simp only [List.mem_singleton, Call.ExecuteScriptRaw.injEq] at hm
        exact ⟨hm.1, by rw [hm.2, hargs]⟩
    · rw [hc] at hm
      rcases List.mem_append.mp hm with hm | hm
      · rcases List.mem_append.mp hm with hm | hm
        · exact absurd hm (not_mem_installJS_calls wd js s script args)
        · simp only [List.mem_singleton, Call.ExecuteScriptRaw.injEq] at hm
          exact ⟨hm.1, by rw [hm.2, hargs]⟩
      · simp at hm
  · intro hinst
    rw [← hargs]
    rcases FindElement_calls wd js locator context s with ⟨hne, _⟩ | ⟨_, hc | ⟨d, hc⟩⟩
    · exact absurd hinst hne
    · rw [hc]; simp
    · rw [hc]; simp
  · intro script args hm
    rcases FindElements_calls wd js locator context s with ⟨_, hc⟩ | ⟨_, hc | ⟨d, hc⟩⟩
    · rw [hc] at hm
      exact absurd hm (not_mem_installJS_calls wd js s script args)
    · rw [hc] at hm
      rcases List.mem_append.mp hm with hm | hm
      · exact absurd hm (not_mem_installJS_calls wd js s script args)
      · simp only [List.mem_singleton, Call.ExecuteScriptRaw.injEq] at hm
        exact ⟨hm.1, by rw [hm.2, hargs]⟩
    · rw [hc] at hm
      rcases List.mem_append.mp hm with hm | hm
      · rcases List.mem_append.mp hm with hm | hm
        · exact absurd hm (not_mem_installJS_calls wd js s script args)
        · simp only [List.mem_singleton, Call.ExecuteScriptRaw.injEq] at hm
          exact ⟨hm.1, by rw [hm.2, hargs]⟩
      · simp at hm
  · intro hinst
    rw [← hargs]
    rcases FindElements_calls wd js locator context s with ⟨hne, _⟩ | ⟨_, hc | ⟨d, hc⟩⟩
    · exact absurd hinst hne
    · rw [hc]; simp
    · rw [hc]; simp

/-- C9, at a ready driver, without and with a context element: the find script
is called with `[locator]`, resp. with `[locator, context]`. -/
theorem find_script_arguments_witness :
    Call.ExecuteScriptRaw findElementScript (some [Arg.str "\x7bbutton 'OK'\x7d"]) ∈
      (FindElement (fixedDriver (Value.bool true, none) none ("e1", none))
        "JS" "\x7bbutton 'OK'\x7d" none 0).calls ∧
    Call.ExecuteScriptRaw findElementsScript
        (some [Arg.str "\x7bbutton 'OK'\x7d", Arg.elem "container"]) ∈
      (FindElements (fixedDriver (Value.bool true, none) none ("e1", none))
        "JS" "\x7bbutton 'OK'\x7d" (some "container") 0).calls :=
  ⟨(find_script_arguments (fixedDriver (Value.bool true, none) none ("e1", none))
      "JS" "\x7bbutton 'OK'\x7d" none 0).1.2 rfl,
   (find_script_arguments (fixedDriver (Value.bool true, none) none ("e1", none))
      "JS" "\x7bbutton 'OK'\x7d" (some "container") 0).2.2 rfl⟩

end GlueTheorems

/-! ## The find functions in front of the engine -/

/-- C6. In front of a page that hosts the engine, `FindElements` never fails
with the no-match error: whatever error it returns, `errors.As` finds no
`selenium.Error` with `Err = "no such element"` in it, and its chain holds
none; and for a well-formed locator (one that parses) that matches nothing, on
a page where the engine is installed or can be installed (the implementation
script is not the probe script), it returns the empty sequence and no
error. -/
theorem FindElements_never_no_match (E : Engine) (js locator : String)
    (context : Option Node) (p : Page) :
    (∀ err r, (FindElements (browser E js) js locator context p).ret.2 = some err →
      (errorsAs (some err) = some r ∨ GoError.selenium r ∈ err.chain) →
      r.Err ≠ "no such element") ∧
    (∀ query, (p.semanticLocatorsReady = true ∨ js ≠ isInstalledScript) →
      E.parse locator = Except.ok query →
      E.find query (context.getD p.document) = [] →
      (FindElements (browser E js) js locator context p).ret = (some [], none)) := by
  have hret := FindElements_browser_ret E js locator context p
  constructor
  · intro err r herr has
    have has : errorsAs (some err) = some r := by
      rcases has with has | has
      · exact has
      · exact asSelenium_of_mem_chain err r has
    rw [hret] at herr
    cases hready : (installJS (browser E js) js p).state.semanticLocatorsReady with
    | false =>
      rw [hready] at herr
      simp only [Bool.false_eq_true, if_false, Option.some.injEq] at herr
      rw [← herr] at has
      simp only [errorsAs, asSelenium_Errorf_w, thrown, GoError.asSelenium,
        Option.some.injEq] at has
      rw [← has]
      decide
    | true =>
      rw [hready] at herr
      simp only [if_true] at herr
      cases hparse : E.parse locator with
      | error message =>
        rw [hparse] at herr
        simp only [Option.some.injEq] at herr
        rw [← herr] at has
        simp only [errorsAs, asSelenium_Errorf_w, GoError.asSelenium,
          Option.some.injEq] at has
        rw [← has]
        show "invalid selector" ≠ "no such element"
        decide
      | ok query =>
        rw [hparse] at herr
        cases herr
  · intro query hjs hparse hfind
    have hready := (installJS_browser E js p).2.2 hjs
    rw [hret, hready, hparse]
    simp only [if_true, hfind]

/-- C6, at the page of the tests: for the locator of `TestNoSuchElement`
`FindElements` returns the empty sequence and no error, and for the
unterminated locator of `TestInvalidSyntax` the error that it returns is not
the no-match error. -/
theorem FindElements_never_no_match_witness :
    (FindElements (browser demoEngine "JS") "JS"
      "\x7bbutton 'this label does not exist'\x7d" none demoPage).ret = (some [], none) ∧
    (FindElements (browser demoEngine "JS") "JS" "\x7bbutton 'OK'" none demoPage).ret.2 =
      some (Errorf_w "wd.ExecuteScriptRaw(window.findElementsBySemanticLocator)"
        (GoError.selenium
          { Err := "invalid selector"
            Message := "javascript error: InvalidLocatorError: unsupported locator"
            Stacktrace := ""
            HTTPCode := 400
            LegacyCode := 17 })) ∧
    ({ Err := "invalid selector"
       Message := "javascript error: InvalidLocatorError: unsupported locator"
       Stacktrace := ""
       HTTPCode := 400
       LegacyCode := 17 } : SeleniumError).Err ≠ "no such element" :=
  ⟨(FindElements_never_no_match demoEngine "JS"
      "\x7bbutton 'this label does not exist'\x7d" none demoPage).2
      [{ role := "button", name := NamePattern.Exact "this label does not exist",
         outer := false }]
      (Or.inr (by decide)) rfl rfl,
   rfl,
   (FindElements_never_no_match demoEngine "JS" "\x7bbutton 'OK'" none demoPage).1
      (Errorf_w "wd.ExecuteScriptRaw(window.findElementsBySemanticLocator)"
        (GoError.selenium
          { Err := "invalid selector"
            Message := "javascript error: InvalidLocatorError: unsupported locator"
            Stacktrace := ""
            HTTPCode := 400
            LegacyCode := 17 }))
      { Err := "invalid selector"
        Message := "javascript error: InvalidLocatorError: unsupported locator"
        Stacktrace := ""
        HTTPCode := 400
        LegacyCode := 17 }
      rfl (Or.inl rfl)⟩

/-- C7, as amended. In front of a page that hosts the engine, with a non-nil
context element, the element that `FindElement` returns and every element that
`FindElements` returns is the context itself or a descendant of the context,
that is, a node of the subtree rooted at the context: no element outside that
subtree is returned. -/
theorem find_within_context (E : Engine) (js locator : String) (ctx : Node) (p : Page) :
    (∀ el, (FindElement (browser E js) js locator (some ctx) p).ret.1 = some el →
      (el = ctx ∨ el ∈ ctx.descendants) ∧ el ∈ ctx.subtree) ∧
    (∀ els el, (FindElements (browser E js) js locator (some ctx) p).ret.1 = some els →
      el ∈ els → (el = ctx ∨ el ∈ ctx.descendants) ∧ el ∈ ctx.subtree) := by
  constructor
  · intro el h
    obtain ⟨query, _, hmem⟩ := FindElement_browser_ok E js locator (some ctx) p el h
    have hd := Engine.mem_find E query ctx el (by simpa using hmem)
    exact ⟨List.mem_cons.mp hd, hd⟩
  · intro els el h hel
    rw [FindElements_browser_ret E js locator (some ctx) p] at h
    cases hready : (installJS (browser E js) js p).state.semanticLocatorsReady with
    | false =>
      rw [hready] at h
      simp at h
    | true =>
      rw [hready] at h
      simp only [if_true] at h
      cases hparse : E.parse locator with
      | error message =>
        rw [hparse] at h
        simp at h
      | ok query =>
        rw [hparse] at h
        simp only [Option.getD_some, Option.some.injEq] at h
        rw [← h] at hel
        have hd := Engine.mem_find E query ctx el hel
        exact ⟨List.mem_cons.mp hd, hd⟩

/-- C7 as amended, at the page of the test `TestFindWithContext`: with the
container as context both functions return the button inside it, which is in
the subtree rooted at the container. -/
theorem find_within_context_witness :
    ((FindElement (browser demoEngine "JS") "JS" "\x7bbutton 'OK'\x7d"
        (some demoContainer) demoPage).ret.1 = some demoTarget ∧
      (demoTarget = demoContainer ∨ demoTarget ∈ demoContainer.descendants) ∧
      demoTarget ∈ demoContainer.subtree) ∧
    ((FindElements (browser demoEngine "JS") "JS" "\x7bbutton 'OK'\x7d"
        (some demoContainer) demoPage).ret.1 = some [demoTarget] ∧
      (demoTarget = demoContainer ∨ demoTarget ∈ demoContainer.descendants) ∧
      demoTarget ∈ demoContainer.subtree) :=
  have h := find_within_context demoEngine "JS" "\x7bbutton 'OK'\x7d" demoContainer demoPage
  ⟨⟨rfl, h.1 demoTarget rfl⟩, ⟨rfl, h.2 [demoTarget] demoTarget rfl (List.mem_singleton.mpr rfl)⟩⟩

/-- C7 as stated fails when the context itself matches the locator: with the
button `target` of the test page as context and the locator of that button,
`FindElement` returns the context and `FindElements` the sequence holding the
context alone, and the context is not among its own descendants (it has
none). -/
theorem context_itself_returned :
    (FindElement (browser demoEngine "JS") "JS" "\x7bbutton 'OK'\x7d"
        (some demoTarget) demoPage).ret.1 = some demoTarget ∧
    (FindElements (browser demoEngine "JS") "JS" "\x7bbutton 'OK'\x7d"
        (some demoTarget) demoPage).ret.1 = some [demoTarget] ∧
    demoTarget.descendants = [] ∧
    ¬ (∀ el, (FindElement (browser demoEngine "JS") "JS" "\x7bbutton 'OK'\x7d"
        (some demoTarget) demoPage).ret.1 = some el → el ∈ demoTarget.descendants) ∧
    ¬ (∀ els el, (FindElements (browser demoEngine "JS") "JS" "\x7bbutton 'OK'\x7d"
        (some demoTarget) demoPage).ret.1 = some els → el ∈ els →
        el ∈ demoTarget.descendants) :=
  ⟨rfl, rfl, rfl,
   fun h => List.not_mem_nil demoTarget (h demoTarget rfl),
   fun h => List.not_mem_nil demoTarget
     (h [demoTarget] demoTarget rfl (List.mem_singleton.mpr rfl))⟩

end Semloc
